import Mathlib

/-!
Verification of the FreeWebNovelParser repository (`src/main.py`) against its
natural-language specification.  The Python source is shallowly embedded:

* `urljoin` models `urllib.parse.urljoin` restricted to the cases the program
  exercises (a fixed absolute http(s) base with empty path): a reference with
  its own URI scheme is returned unchanged, a network-path reference (`//…`)
  inherits the base scheme, an absolute path is appended to the base, an empty
  reference yields the base, and any other reference is joined below the base.
* BeautifulSoup element trees are embedded as the mutually inductive
  `Node`/`NodeList`; `decompose` becomes node removal and attribute mutation
  becomes functional update.
* `NovelDownloader.safe_request` is embedded as a loop over an oracle
  assigning an outcome (HTTP 200 / HTTP 404 / retryable failure) to each
  attempt number.
* The `run` workflow is embedded as a state-passing function over an explicit
  filesystem record holding the temporary and final artifact paths; the list
  of chapters the site serves consecutively from the start chapter is an
  input, and `finalize_epub` takes an explicit failure-injection point for
  the serialization and rename steps.
-/

set_option maxRecDepth 100000

namespace FreeWebNovelParser

/-! ## Constants (src/main.py lines 16-22) -/

def BASE_URL : String := "https://freewebnovel.com"

def SAVE_INTERVAL : Nat := 5

/-! ## URL joining (`urllib.parse.urljoin`)

The program only ever joins against `BASE_URL`, an absolute `https` URL with
an empty path, so the embedding covers RFC 3986 reference resolution for that
base: scheme-carrying references, network-path references, absolute-path
references, the empty reference, and other (relative) references. -/

/-- Characters allowed in a URI scheme after the leading letter. -/
def isSchemeChar (c : Char) : Bool :=
  c.isAlpha || c.isDigit || c = '+' || c = '-' || c = '.'

/-- After the first character of a candidate scheme: scan scheme characters
until a colon; `true` iff a colon terminates a run of scheme characters. -/
def schemeRest : List Char → Bool
  | [] => false
  | c :: cs => if c = ':' then true else isSchemeChar c && schemeRest cs

/-- `true` iff the character list begins with a URI scheme followed by `:`. -/
def beginsWithScheme : List Char → Bool
  | [] => false
  | c :: cs => c.isAlpha && schemeRest cs

/-- Boolean prefix test on character lists. -/
def charPrefix : List Char → List Char → Bool
  | [], _ => true
  | _ :: _, [] => false
  | p :: ps, c :: cs => p = c && charPrefix ps cs

/-- `strStartsWith s p` is `true` iff `p` is a prefix of `s`. -/
def strStartsWith (s p : String) : Bool :=
  charPrefix p.data s.data

/-- `true` iff `needle` occurs as a contiguous substring of the list. -/
def hasSub (needle : List Char) : List Char → Bool
  | [] => charPrefix needle []
  | c :: cs => charPrefix needle (c :: cs) || hasSub needle cs

/-- Python's `str.strip()`: remove whitespace from both ends. -/
def pyStrip (s : String) : String :=
  String.mk (((s.data.dropWhile Char.isWhitespace).reverse.dropWhile
    Char.isWhitespace).reverse)

/-- Python's `sep.join(items)`. -/
def joinWith (sep : String) : List String → String
  | [] => ""
  | [x] => x
  | x :: xs => x ++ sep ++ joinWith sep xs

/-- Model of `urllib.parse.urljoin base url` for the program's fixed base
`BASE_URL` (an absolute `https` URL with empty path):  a reference carrying
its own scheme is returned unchanged; `//host/...` inherits the base scheme;
an absolute path is appended to the base; the empty reference resolves to the
base; any other reference is joined below the base path. -/
def urljoin (base url : String) : String :=
  if beginsWithScheme url.data then url
  else if strStartsWith url "//" then "https:" ++ url
  else if strStartsWith url "/" then base ++ url
  else if url = "" then base
  else base ++ "/" ++ url

/-! ## BeautifulSoup element trees -/

mutual
/-- A parsed HTML node: an element with tag name, attributes and children, or
a text node. -/
inductive Node where
  | elem (name : String) (attrs : List (String × String)) (children : NodeList)
  | text (s : String)

/-- A list of sibling nodes. -/
inductive NodeList where
  | nil
  | cons (n : Node) (ns : NodeList)
end

/-! ## `NovelDownloader._process_chapter_content` (src/main.py lines 286-296)

```
for element in content.find_all(['script', 'ins', 'div.ad']):
    element.decompose()
for img in content.find_all('img', src=True):
    img['src'] = urljoin(BASE_URL, img['src'])
```

`find_all(['script', 'ins', 'div.ad'])` matches descendants whose *tag name*
is one of the three strings (so the literal name `div.ad`, as in the source);
`decompose` removes the matched element together with its subtree.  The
second pass rewrites the `src` attribute of every descendant `img` element
that has one.  `find_all` never matches the tag itself.
-/

/-- Tag names removed by the ad-stripping pass, exactly as listed in the
source (the third entry is the literal tag name `div.ad`). -/
def adNames : List String := ["script", "ins", "div.ad"]

/-- First pass of `_process_chapter_content`: recursively remove every
element whose tag name is in `adNames`, with its whole subtree. -/
def stripAds : NodeList → NodeList
  | .nil => .nil
  | .cons (.text s) ns => .cons (.text s) (stripAds ns)
  | .cons (.elem name attrs children) ns =>
    if name ∈ adNames then stripAds ns
    else .cons (.elem name attrs (stripAds children)) (stripAds ns)

/-- `true` iff the attribute list carries a `src` key (the `src=True` filter
of `find_all('img', src=True)`). -/
def hasSrc : List (String × String) → Bool
  | [] => false
  | (k, _) :: rest => k = "src" || hasSrc rest

/-- `img['src'] = urljoin(BASE_URL, img['src'])`: rewrite the `src`
attribute value through `urljoin`. -/
def setSrc : List (String × String) → List (String × String)
  | [] => []
  | (k, v) :: rest =>
    if k = "src" then (k, urljoin BASE_URL v) :: setSrc rest
    else (k, v) :: setSrc rest

/-- Second pass of `_process_chapter_content`: rewrite the `src` attribute of
every `img` element that has one. -/
def fixImgs : NodeList → NodeList
  | .nil => .nil
  | .cons (.text s) ns => .cons (.text s) (fixImgs ns)
  | .cons (.elem name attrs children) ns =>
    .cons (.elem name (if name = "img" && hasSrc attrs then setSrc attrs else attrs)
            (fixImgs children)) (fixImgs ns)

/-- `NovelDownloader._process_chapter_content`: strip ad elements from the
content tag's descendants, then absolutize image sources.  The tag itself is
never matched by `find_all`, so only its children are transformed. -/
def process_chapter_content : Node → Node
  | .text s => .text s
  | .elem name attrs children => .elem name attrs (fixImgs (stripAds children))

/-! ## `NovelDownloader.safe_request` (src/main.py lines 79-166)

The request loop is embedded over an oracle `outcomes` giving the outcome of
each attempt (numbered from 1): HTTP 200, HTTP 404, or any retryable outcome
(other status codes and `requests` exceptions, which the source treats
identically for control flow).  The Python loop is

```
attempt = 0
while attempt <= max_retries:
    attempt += 1
    ... request; return on 200 or 404 ...
    ... sleep/backoff when attempt < max_retries ...
return None
```

so the body runs for attempt values `1 .. max_retries + 1`; the embedding
recurses on the number of loop iterations still permitted, which starts at
`max_retries + 1`, and returns the request result together with the final
value of the attempt counter (the number of requests issued). -/

/-- Outcome of a single HTTP attempt, as classified by `safe_request`. -/
inductive ReqOutcome where
  | success
  | notFound
  | retryable
deriving DecidableEq

/-- The `while attempt <= max_retries` loop of `safe_request`: `attempt` is
the current value of the attempt counter, `remaining` the number of loop
iterations the condition still allows (`max_retries + 1 - attempt`). -/
def safe_request_loop (outcomes : Nat → ReqOutcome) (attempt : Nat) :
    Nat → Option ReqOutcome × Nat
  | 0 => (none, attempt)
  | remaining + 1 =>
    match outcomes (attempt + 1) with
    | .success => (some .success, attempt + 1)
    | .notFound => (some .notFound, attempt + 1)
    | .retryable => safe_request_loop outcomes (attempt + 1) remaining

/-- `NovelDownloader.safe_request`: returns the terminating outcome (200
response, 404 response, or `None` after retries are exhausted) paired with
the number of attempts issued. -/
def safe_request (outcomes : Nat → ReqOutcome) (max_retries : Nat) :
    Option ReqOutcome × Nat :=
  safe_request_loop outcomes 0 (max_retries + 1)

/-- `max_retries` at the metadata call site (`fetch_metadata` uses the
default). -/
def METADATA_MAX_RETRIES : Nat := 5

/-- `max_retries` at the chapter call site (`download_chapter` passes 10). -/
def CHAPTER_MAX_RETRIES : Nat := 10

/-! ## `NovelDownloader.fetch_metadata` (src/main.py lines 168-213)

The parsed overview page is embedded as the result of the six CSS-selector
lookups the source performs: for each selector, the element's raw text (or
attribute value), `none` when no element matches.  `_get_text` strips the
text of a matched element. -/

/-- The overview page, abstracted to the six selector lookups of
`fetch_metadata`.  `titleEl`, `authorEl`, `statusEl` hold the raw `.text` of
the selected element; `genreEls` the `.text` of each genre link;
`descriptionParas` the `str(p)` serialization of each description paragraph;
`coverSrc` the `src` attribute of the cover image. -/
structure OverviewPage where
  titleEl : Option String
  authorEl : Option String
  genreEls : List String
  statusEl : Option String
  descriptionParas : List String
  coverSrc : Option String
deriving DecidableEq

/-- The `self.metadata` dictionary as built by `fetch_metadata`.  Fields that
the source may leave as Python `None` are `Option`s; `author` is always a
string because of the `or "Unknown Author"` default. -/
structure Metadata where
  title : Option String
  author : String
  genres : List String
  status : Option String
  description : String
  coverUrl : Option String
deriving DecidableEq

/-- Python's `x or default` for an optional stripped string: the default is
taken when the value is `None` or empty (falsy). -/
def pyOrDefault (x : Option String) (default : String) : String :=
  match x with
  | none => default
  | some s => if s = "" then default else s

/-- The `self.metadata` dictionary `fetch_metadata` builds from a fetched
overview page: every key is populated, possibly with `None` values. -/
def parse_metadata (p : OverviewPage) : Metadata :=
  { title := p.titleEl.map pyStrip
    author := pyOrDefault (p.authorEl.map pyStrip) "Unknown Author"
    genres := p.genreEls.map pyStrip
    status := p.statusEl.map pyStrip
    description := String.join p.descriptionParas
    coverUrl :=
      match p.coverSrc with
      | none => none
      | some src => if src = "" then some src else some (urljoin BASE_URL src) }

/-- `NovelDownloader.fetch_metadata`: `none` models both a failed
`safe_request` (`response is None`) and the `except (RequestException,
ValueError)` path. -/
def fetch_metadata (page : Option OverviewPage) : Option Metadata :=
  match page with
  | none => none
  | some p => some (parse_metadata p)

/-! ## `NovelDownloader._create_epub` title (src/main.py lines 215-224)

`book.set_title(self.metadata.get('title', self.novel_name.replace('-', '
').title()))`: `self.metadata` is either the dictionary built by
`fetch_metadata` (in which case the key `'title'` is always present, its
value possibly `None`) or the initial empty dictionary `{}` (in which case
`dict.get` yields the slug-derived default). -/

/-- Python's `str.title()` for the slug fallback: uppercase every alphabetic
character that follows a non-alphabetic one, lowercase the rest.  The
Boolean argument records whether the previous character was alphabetic. -/
def pyTitleChars : List Char → Bool → List Char
  | [], _ => []
  | c :: cs, prevAlpha =>
    (if c.isAlpha then (if prevAlpha then c.toLower else c.toUpper) else c)
      :: pyTitleChars cs c.isAlpha

/-- `self.novel_name.replace('-', ' ').title()`: the slug-derived fallback
title. -/
def slugTitle (slug : String) : String :=
  String.mk (pyTitleChars (slug.data.map fun c => if c = '-' then ' ' else c) false)

/-- The argument `_create_epub` passes to `book.set_title`.  `none` for the
whole dictionary models `self.metadata == {}`; the result `none` models
passing Python `None` as the book title. -/
def create_epub_title (metadata : Option Metadata) (novel_name : String) :
    Option String :=
  match metadata with
  | some md => md.title
  | none => some (slugTitle novel_name)

/-! ## `NovelDownloader._create_description_page` (src/main.py lines 257-284)

The f-string template is reproduced verbatim; each interpolated field is
rendered the way Python's f-string renders the dictionary value (`None`
prints as `"None"`, since `dict.get`'s default is dead for keys that are
present). -/

/-- Python f-string rendering of a value that may be `None`. -/
def pyFormat (x : Option String) : String :=
  match x with
  | none => "None"
  | some s => s

/-- `NovelDownloader._create_description_page`: the `html.content` string,
interpolating the metadata fields into the fixed template without any
escaping, exactly as the source does. -/
def create_description_page (md : Metadata) : String :=
  "<html xmlns=\"http://www.w3.org/1999/xhtml\">\n" ++
  "        <head><title>Description</title></head>\n" ++
  "        <body>\n" ++
  "            <h1>" ++ pyFormat md.title ++ "</h1>\n" ++
  "            <div class=\"meta\">\n" ++
  "                <div><strong>Author:</strong> " ++ md.author ++ "</div>\n" ++
  "                <div><strong>Status:</strong> " ++ pyFormat md.status ++ "</div>\n" ++
  "                <div><strong>Genres:</strong> " ++ joinWith ", " md.genres ++ "</div>\n" ++
  "            </div>\n" ++
  "            <h2>Summary</h2>\n" ++
  "            <div class=\"description\">" ++ md.description ++ "</div>\n" ++
  "        </body>\n" ++
  "        </html>"

/-- HTML escaping of a free-text field (ampersand, angle brackets, quote),
as the specification requires for text interpolated into markup. -/
def htmlEscape (s : String) : String :=
  String.join (s.data.map fun c =>
    if c = '&' then "&amp;"
    else if c = '<' then "&lt;"
    else if c = '>' then "&gt;"
    else if c = '"' then "&quot;"
    else String.singleton c)

/-- Modelled from the spec: the description page as §4.3 requires it, with
every free-text metadata field escaped before interpolation into the
template.  This is the spec-side definition for comparison with
`create_description_page`, which embeds the source. -/
def create_description_page_escaped (md : Metadata) : String :=
  "<html xmlns=\"http://www.w3.org/1999/xhtml\">\n" ++
  "        <head><title>Description</title></head>\n" ++
  "        <body>\n" ++
  "            <h1>" ++ htmlEscape (pyFormat md.title) ++ "</h1>\n" ++
  "            <div class=\"meta\">\n" ++
  "                <div><strong>Author:</strong> " ++ htmlEscape md.author ++ "</div>\n" ++
  "                <div><strong>Status:</strong> " ++ htmlEscape (pyFormat md.status) ++ "</div>\n" ++
  "                <div><strong>Genres:</strong> " ++ htmlEscape (joinWith ", " md.genres) ++ "</div>\n" ++
  "            </div>\n" ++
  "            <h2>Summary</h2>\n" ++
  "            <div class=\"description\">" ++ htmlEscape md.description ++ "</div>\n" ++
  "        </body>\n" ++
  "        </html>"

/-! ## `NovelDownloader.download_chapter` (src/main.py lines 298-336)

The chapter page soup is abstracted to the three lookups the source
performs: `soup.find('div', class_='txt')` (the content container, a parsed
tree), `soup.find('div', id='article')` (embedded as the element's `.text`,
`none` when the element is absent), and `soup.find('span', class_='chapter')`
(its `.text`).  The `try` block catches only `requests.RequestException`, so
an `AttributeError` raised while parsing escapes the function; the embedding
makes that outcome explicit. -/

/-- A parsed chapter page, abstracted to the three element lookups of
`download_chapter`. -/
structure ChapterSoup where
  txtDiv : Option Node
  articleText : Option String
  chapterSpanText : Option String

/-- Outcome of `download_chapter`: a chapter record, Python `None`, or an
exception escaping the function (the `except` clause catches only
`requests.RequestException`). -/
inductive DownloadResult where
  | ok (title content fileName : String)
  | noContent
  | raised
deriving DecidableEq

/-- The explicit missing-content marker text compared against
`soup.find('div', id='article').text`. -/
def MISSING_CONTENT_MARKER : String :=
  "Chapter content is missing or does not exist! Please try again later!"

/-- Serialization of an attribute list, `str(tag)`-style. -/
def renderAttrs : List (String × String) → String
  | [] => ""
  | (k, v) :: rest => " " ++ k ++ "=\"" ++ v ++ "\"" ++ renderAttrs rest

/-- Serialization of a node list, `str(tag)`-style. -/
def renderList : NodeList → String
  | .nil => ""
  | .cons (.text s) ns => s ++ renderList ns
  | .cons (.elem name attrs children) ns =>
    "<" ++ name ++ renderAttrs attrs ++ ">" ++ renderList children ++
      "</" ++ name ++ ">" ++ renderList ns

/-- `str(content)`: serialization of a parsed tag. -/
def renderNode : Node → String
  | .text s => s
  | .elem name attrs children =>
    "<" ++ name ++ renderAttrs attrs ++ ">" ++ renderList children ++ "</" ++ name ++ ">"

/-- `NovelDownloader.download_chapter` for one chapter page.  `response =
none` models `safe_request` returning `None` (retries exhausted) as well as
a caught `requests.RequestException`.  When the content container exists the
source evaluates `soup.find('div', id='article').text`; if that `find`
returned `None`, the attribute access raises `AttributeError`, which the
`except requests.RequestException` clause does not catch (`.raised`).
The chapter-title span, found at page level and removed from the page before
serialization, is carried separately by `ChapterSoup`. -/
def download_chapter (response : Option ChapterSoup) (chapter_num : Int) :
    DownloadResult :=
  match response with
  | none => .noContent
  | some soup =>
    match soup.txtDiv with
    | none => .noContent
    | some contentDiv =>
      match soup.articleText with
      | none => .raised
      | some articleText =>
        if articleText = MISSING_CONTENT_MARKER then .noContent
        else
          let content := process_chapter_content contentDiv
          let title :=
            match soup.chapterSpanText with
            | some t => pyStrip t
            | none => s!"Chapter {chapter_num}"
          .ok title (renderNode content) s!"chapter_{chapter_num}.xhtml"

/-! ## The run workflow (src/main.py lines 338-443)

`NovelDownloader.run` is embedded as a state-passing function.  Inputs:

* `page`: the overview page `fetch_metadata` parses (`none` = fetch failed);
* `chapters`: the chapter records the site serves for the consecutive
  chapter numbers starting at `start_chapter`; once the list is exhausted,
  `download_chapter` yields `None` (end of content / exhausted retries),
  which is the loop's break condition.  A run that terminates through the
  chapter cap uses only a prefix of the list;
* `fs`: the filesystem state at the temporary and final output paths;
* `ffail`: failure injection for `finalize_epub` (its `except` clause turns
  a serialization or rename error into a `False` return).

The external stop signal is not modeled (no signal is delivered), and
checkpoint serialization is modeled as succeeding; a failed checkpoint is
logged and ignored by the source, leaving the control flow identical. -/

/-- An entry of `book.toc` or `book.spine`: the literal `'nav'` string the
source seeds the spine with, the description `epub.Link` (toc), the
description `EpubHtml` page (spine), or a chapter `EpubHtml` with its
chapter number and resolved title. -/
inductive BookItem where
  | navPlaceholder
  | descriptionLink
  | descriptionPage
  | chapterItem (num : Int) (title : String)
deriving DecidableEq

/-- The `epub.EpubBook` state the claims observe: the `set_title` argument,
the accumulated `toc` and `spine`, and whether `finalize_epub` has added the
`EpubNcx`/`EpubNav` items. -/
structure Book where
  title : Option String
  toc : List BookItem
  spine : List BookItem
  hasNavItems : Bool
deriving DecidableEq

/-- The filesystem at the two paths the program writes:
`{output}.tmp` and the final output path.  `none` = no file present. -/
structure FS where
  temp : Option Book
  output : Option Book
deriving DecidableEq

/-- Failure injection for `finalize_epub`: no failure, an exception from
`epub.write_epub` on the temporary path, or an exception from `os.rename`. -/
inductive FinalizeFail where
  | noFail
  | atWrite
  | atRename
deriving DecidableEq

/-- `NovelDownloader.save_progress`: serialize the current book to the
temporary path (modeled as succeeding; a failure is logged and ignored by
every caller). -/
def save_progress (book : Book) (fs : FS) : Bool × FS :=
  (true, { fs with temp := some book })

/-- `book.add_item(epub.EpubNcx()); book.add_item(epub.EpubNav())` at the
start of `finalize_epub`. -/
def with_nav (b : Book) : Book := { b with hasNavItems := true }

/-- `NovelDownloader.finalize_epub`: add the navigation items, write the
book to the temporary path, remove any file at the final path, rename the
temporary file onto the final path.  Any exception is caught and turns into
a `False` return: on a write failure the filesystem is unchanged, and on a
rename failure the temporary artifact holds the new book while the final
path has already been cleared by `os.remove`. -/
def finalize_epub (book : Book) (fs : FS) (fail : FinalizeFail) : Bool × FS :=
  match fail with
  | .atWrite => (false, fs)
  | .atRename => (false, { temp := some (with_nav book), output := none })
  | .noFail => (true, { temp := none, output := some (with_nav book) })

/-- A chapter as appended to the book: the resolved title (the chapter body
text plays no part in the ordering and persistence claims). -/
structure ChapterData where
  title : String
deriving DecidableEq

/-- State of the chapter loop in `run`: the book under construction (title,
toc, spine), `chapter_count`, `current_chapter`, the chapter counts at which
`save_progress` was invoked, the number of `download_chapter` calls, and the
filesystem. -/
structure LoopState where
  bookTitle : Option String
  toc : List BookItem
  spine : List BookItem
  chapterCount : Nat
  currentChapter : Int
  saves : List Nat
  fetches : Nat
  fs : FS
deriving DecidableEq

/-- The book object as `save_progress` sees it mid-run (navigation items not
yet added). -/
def snapshot (st : LoopState) : Book :=
  { title := st.bookTitle, toc := st.toc, spine := st.spine, hasNavItems := false }

/-- One successful iteration of the chapter loop: append the chapter to the
book (`add_item`, `toc.append`, `spine.append`), bump the counters, then
checkpoint when `chapter_count % SAVE_INTERVAL == 0`. -/
def loopStep (st : LoopState) (c : ChapterData) : LoopState :=
  let st1 : LoopState :=
    { st with
      fetches := st.fetches + 1
      toc := st.toc ++ [BookItem.chapterItem st.currentChapter c.title]
      spine := st.spine ++ [BookItem.chapterItem st.currentChapter c.title]
      chapterCount := st.chapterCount + 1
      currentChapter := st.currentChapter + 1 }
  if st1.chapterCount % SAVE_INTERVAL = 0 then
    { st1 with
      saves := st1.saves ++ [st1.chapterCount]
      fs := (save_progress (snapshot st1) st1.fs).2 }
  else st1

/-- The `while` loop of `run`: the loop runs while `max_chapters == 0 or
chapter_count < max_chapters`; inside, a fetch beyond the available chapters
returns `None` and breaks the loop. -/
def chapterLoop (max_chapters : Int) : List ChapterData → LoopState → LoopState
  | [], st =>
    if max_chapters = 0 ∨ (st.chapterCount : Int) < max_chapters then
      { st with fetches := st.fetches + 1 }
    else st
  | c :: rest, st =>
    if max_chapters = 0 ∨ (st.chapterCount : Int) < max_chapters then
      chapterLoop max_chapters rest (loopStep st c)
    else st

/-- A recorded invocation of the progress persister: an in-loop checkpoint
at a given chapter count, or the final `save_progress` in the `finally`
block. -/
inductive PersistCall where
  | checkpoint (count : Nat)
  | finalSave
deriving DecidableEq

/-- Everything observable about one `run` invocation. -/
structure RunTrace where
  aborted : Bool
  bookTitle : Option String
  toc : List BookItem
  spine : List BookItem
  chapterCount : Nat
  fetches : Nat
  persistCalls : List PersistCall
  finalizeOk : Bool
  fs : FS
deriving DecidableEq

/-- The loop state right after the book shell is built: `book.toc = []` then
the description link appended, `book.spine = ['nav']` then the description
page appended, counters zeroed, cursor at the configured start chapter. -/
def initial_state (bookTitle : Option String) (start_chapter : Int) (fs : FS) :
    LoopState :=
  { bookTitle := bookTitle
    toc := [BookItem.descriptionLink]
    spine := [BookItem.navPlaceholder, BookItem.descriptionPage]
    chapterCount := 0, currentChapter := start_chapter
    saves := [], fetches := 0, fs := fs }

/-- The non-aborting branch of `run`: build the book shell, execute the
chapter loop, then (the `finally` block) invoke `save_progress` once and
`finalize_epub` (which on success leaves no temporary file). -/
def run_with_metadata (md : Metadata) (chapters : List ChapterData)
    (novel_name : String) (start_chapter max_chapters : Int)
    (fs : FS) (ffail : FinalizeFail) : RunTrace :=
  let bookTitle := create_epub_title (some md) novel_name
  let st := chapterLoop max_chapters chapters (initial_state bookTitle start_chapter fs)
  let fs1 := (save_progress (snapshot st) st.fs).2
  let r := finalize_epub (snapshot st) fs1 ffail
  { aborted := false, bookTitle := bookTitle
    toc := st.toc, spine := st.spine
    chapterCount := st.chapterCount, fetches := st.fetches
    persistCalls := st.saves.map PersistCall.checkpoint ++ [PersistCall.finalSave]
    finalizeOk := r.1, fs := r.2 }

/-- `NovelDownloader.run`: abort before building anything when
`fetch_metadata` yields nothing, otherwise run the workflow. -/
def run (page : Option OverviewPage) (chapters : List ChapterData)
    (novel_name : String) (start_chapter max_chapters : Int)
    (fs : FS) (ffail : FinalizeFail) : RunTrace :=
  match fetch_metadata page with
  | none =>
    { aborted := true, bookTitle := none, toc := [], spine := []
      chapterCount := 0, fetches := 0, persistCalls := []
      finalizeOk := false, fs := fs }
  | some md =>
    run_with_metadata md chapters novel_name start_chapter max_chapters fs ffail

/-- The book items produced by appending the given chapters at consecutive
chapter numbers starting at `start`. -/
def chapterItems (start : Int) : List ChapterData → List BookItem
  | [] => []
  | c :: rest => BookItem.chapterItem start c.title :: chapterItems (start + 1) rest

/-- The chapter counts at which the spec schedules checkpoints for a run of
`C` chapters: `K, 2K, … ≤ C` with `K = SAVE_INTERVAL`. -/
def checkpointSchedule (C : Nat) : List Nat :=
  (List.range (C / SAVE_INTERVAL)).map fun i => SAVE_INTERVAL * (i + 1)

/-- The loop state a run with the given inputs reaches when the chapter
loop finishes. -/
def loop_result (md : Metadata) (chapters : List ChapterData)
    (novel_name : String) (start_chapter max_chapters : Int) (fs : FS) :
    LoopState :=
  chapterLoop max_chapters chapters
    (initial_state (create_epub_title (some md) novel_name) start_chapter fs)

/-! ## Concrete fixtures for evaluations -/

/-- A sample overview page for concrete evaluations. -/
def samplePage : OverviewPage :=
  { titleEl := some "Shadow Slave", authorEl := some "Guiltythree"
    genreEls := ["Fantasy"], statusEl := some "OnGoing"
    descriptionParas := ["<p>Growing up in poverty.</p>"], coverSrc := none }

/-- An overview page whose title selector matches nothing. -/
def samplePageNoTitle : OverviewPage :=
  { titleEl := none, authorEl := some "Guiltythree"
    genreEls := [], statusEl := none
    descriptionParas := [], coverSrc := none }

/-- Metadata carrying a markup-injection payload in its title field. -/
def injectionMetadata : Metadata :=
  { title := some "<script>alert(1)</script>", author := "A"
    genres := ["Fantasy"], status := some "OnGoing"
    description := "desc", coverUrl := none }

/-- An empty filesystem: no temporary and no final artifact. -/
def emptyFS : FS := { temp := none, output := none }

/-- A previously completed artifact sitting at the final output path. -/
def previousArtifact : Book :=
  { title := some "previous run", toc := [BookItem.descriptionLink]
    spine := [BookItem.navPlaceholder, BookItem.descriptionPage]
    hasNavItems := true }

/-- A chapter page with a `div.txt` content container but no element with
`id='article'`. -/
def txtOnlySoup : ChapterSoup :=
  { txtDiv := some (Node.elem "div" [("class", "txt")] NodeList.nil)
    articleText := none, chapterSpanText := none }

/-! ## Lemmas: the sanitizer is idempotent -/

/-- A character list starting with the six characters `https:` begins with a
URI scheme, whatever follows. -/
theorem beginsWithScheme_https (cs : List Char) :
    beginsWithScheme ('h' :: 't' :: 't' :: 'p' :: 's' :: ':' :: cs) = true := rfl

/-- Every result of `urljoin BASE_URL` begins with a URI scheme. -/
theorem urljoin_base_scheme (u : String) :
    beginsWithScheme (urljoin BASE_URL u).data = true := by
  unfold urljoin
  split
  · next h => exact h
  split
  · rw [String.data_append]
    exact beginsWithScheme_https u.data
  split
  · rw [String.data_append]
    exact beginsWithScheme_https _
  split
  · rfl
  · rw [String.data_append, String.data_append]
    exact beginsWithScheme_https _

/-- `urljoin` leaves a reference that already carries a scheme unchanged. -/
theorem urljoin_absolute (v : String) (h : beginsWithScheme v.data = true) :
    urljoin BASE_URL v = v := by
  unfold urljoin
  simp [h]

/-- Joining against the base twice is the same as joining once. -/
theorem urljoin_idem (u : String) :
    urljoin BASE_URL (urljoin BASE_URL u) = urljoin BASE_URL u :=
  urljoin_absolute _ (urljoin_base_scheme u)

theorem setSrc_idem : ∀ attrs, setSrc (setSrc attrs) = setSrc attrs
  | [] => rfl
  | (k, v) :: rest => by
    by_cases h : k = "src"
    · simp [setSrc, h, urljoin_idem, setSrc_idem rest]
    · simp [setSrc, h, setSrc_idem rest]

theorem hasSrc_setSrc : ∀ attrs, hasSrc (setSrc attrs) = hasSrc attrs
  | [] => rfl
  | (k, v) :: rest => by
    by_cases h : k = "src"
    · simp [setSrc, hasSrc, h, hasSrc_setSrc rest]
    · simp [setSrc, hasSrc, h, hasSrc_setSrc rest]

theorem stripAds_idem : ∀ ns, stripAds (stripAds ns) = stripAds ns
  | .nil => by simp [stripAds]
  | .cons (.text s) ns => by simp [stripAds, stripAds_idem ns]
  | .cons (.elem name attrs children) ns => by
    by_cases h : name ∈ adNames
    · simp [stripAds, h, stripAds_idem ns]
    · simp [stripAds, h, stripAds_idem ns, stripAds_idem children]

theorem fixImgs_idem : ∀ ns, fixImgs (fixImgs ns) = fixImgs ns
  | .nil => by simp [fixImgs]
  | .cons (.text s) ns => by simp [fixImgs, fixImgs_idem ns]
  | .cons (.elem name attrs children) ns => by
    by_cases h : (name = "img" && hasSrc attrs) = true
    · have h2 : (name = "img" && hasSrc (setSrc attrs)) = true := by
        rw [hasSrc_setSrc]; exact h
      simp [fixImgs, h, h2, setSrc_idem, fixImgs_idem children, fixImgs_idem ns]
    · simp [fixImgs, h, fixImgs_idem children, fixImgs_idem ns]

/-- Stripping ads commutes with fixing image sources: the `src` rewrite
changes no tag name, so the same elements are removed either way. -/
theorem stripAds_fixImgs_comm : ∀ ns, stripAds (fixImgs ns) = fixImgs (stripAds ns)
  | .nil => by simp [stripAds, fixImgs]
  | .cons (.text s) ns => by simp [stripAds, fixImgs, stripAds_fixImgs_comm ns]
  | .cons (.elem name attrs children) ns => by
    by_cases h : name ∈ adNames
    · simp [stripAds, fixImgs, h, stripAds_fixImgs_comm ns]
    · simp [stripAds, fixImgs, h, stripAds_fixImgs_comm ns, stripAds_fixImgs_comm children]

/-! ## Lemmas: the chapter loop -/

theorem loopStep_bookTitle (st : LoopState) (c : ChapterData) :
    (loopStep st c).bookTitle = st.bookTitle := by
  simp only [loopStep]
  split <;> rfl

theorem loopStep_chapterCount (st : LoopState) (c : ChapterData) :
    (loopStep st c).chapterCount = st.chapterCount + 1 := by
  simp only [loopStep]
  split <;> rfl

theorem loopStep_currentChapter (st : LoopState) (c : ChapterData) :
    (loopStep st c).currentChapter = st.currentChapter + 1 := by
  simp only [loopStep]
  split <;> rfl

theorem loopStep_toc (st : LoopState) (c : ChapterData) :
    (loopStep st c).toc = st.toc ++ [BookItem.chapterItem st.currentChapter c.title] := by
  simp only [loopStep]
  split <;> rfl

theorem loopStep_spine (st : LoopState) (c : ChapterData) :
    (loopStep st c).spine = st.spine ++ [BookItem.chapterItem st.currentChapter c.title] := by
  simp only [loopStep]
  split <;> rfl

theorem loopStep_saves (st : LoopState) (c : ChapterData) :
    (loopStep st c).saves = st.saves ++
      (if (st.chapterCount + 1) % SAVE_INTERVAL = 0 then [st.chapterCount + 1] else []) := by
  simp only [loopStep]
  split
  · next h => simp [h]
  · next h => simp [h]

theorem loopStep_fs_output (st : LoopState) (c : ChapterData) :
    (loopStep st c).fs.output = st.fs.output := by
  simp only [loopStep, save_progress]
  split <;> rfl

/-- Characterization of the chapter loop: some number `n` of the available
chapters is appended; the table of contents and the spine each grow by
exactly the chapter items for those `n` chapters, numbered consecutively
from the entry chapter cursor; the in-loop checkpoints happen exactly at the
chapter counts divisible by `SAVE_INTERVAL`; and the loop never touches the
final output path. -/
theorem chapterLoop_spec (max_chapters : Int) :
    ∀ (chapters : List ChapterData) (st : LoopState),
    ∃ n, n ≤ chapters.length ∧
      (chapterLoop max_chapters chapters st).bookTitle = st.bookTitle ∧
      (chapterLoop max_chapters chapters st).chapterCount = st.chapterCount + n ∧
      (chapterLoop max_chapters chapters st).currentChapter = st.currentChapter + n ∧
      (chapterLoop max_chapters chapters st).toc
        = st.toc ++ chapterItems st.currentChapter (chapters.take n) ∧
      (chapterLoop max_chapters chapters st).spine
        = st.spine ++ chapterItems st.currentChapter (chapters.take n) ∧
      (chapterLoop max_chapters chapters st).saves
        = st.saves ++ ((List.range n).map (fun i => st.chapterCount + i + 1)).filter
            (fun x => x % SAVE_INTERVAL = 0) ∧
      (chapterLoop max_chapters chapters st).fs.output = st.fs.output
  | [], st => by
    refine ⟨0, ?_⟩
    unfold chapterLoop
    split <;> simp [chapterItems]
  | c :: rest, st => by
    by_cases h : max_chapters = 0 ∨ (st.chapterCount : Int) < max_chapters
    · obtain ⟨n, hn, hTitle, hCount, hCur, hToc, hSpine, hSaves, hOut⟩ :=
        chapterLoop_spec max_chapters rest (loopStep st c)
      refine ⟨n + 1, by simpa using Nat.succ_le_succ hn, ?_, ?_, ?_, ?_, ?_, ?_, ?_⟩
      all_goals
        simp only [chapterLoop, if_pos h]
      · rw [hTitle, loopStep_bookTitle]
      · rw [hCount, loopStep_chapterCount]; omega
      · rw [hCur, loopStep_currentChapter]; omega
      · rw [hToc, loopStep_toc, loopStep_currentChapter]
        simp [chapterItems, List.append_assoc]
      · rw [hSpine, loopStep_spine, loopStep_currentChapter]
        simp [chapterItems, List.append_assoc]
      · rw [hSaves, loopStep_saves, loopStep_chapterCount]
        rw [List.range_succ_eq_map, List.map_cons, List.map_map, List.filter_cons]
        have hshift : (List.range n).map ((fun i => st.chapterCount + i + 1) ∘ Nat.succ)
            = (List.range n).map (fun i => st.chapterCount + 1 + i + 1) := by
          apply List.map_congr_left
          intro i _
          simp only [Function.comp_apply]
          omega
        rw [hshift]
        by_cases h5 : (st.chapterCount + 1) % SAVE_INTERVAL = 0
        · simp [h5, List.append_assoc]
        · simp [h5, List.append_assoc]
      · rw [hOut, loopStep_fs_output]
    · exact ⟨0, by simp [chapterLoop, if_neg h, chapterItems]⟩

/-! ## Lemmas: the run workflow -/

theorem run_some_eq (p : OverviewPage) (chapters : List ChapterData)
    (novel_name : String) (start_chapter max_chapters : Int)
    (fs : FS) (ffail : FinalizeFail) :
    run (some p) chapters novel_name start_chapter max_chapters fs ffail
      = run_with_metadata (parse_metadata p) chapters novel_name start_chapter
          max_chapters fs ffail := rfl

theorem run_with_metadata_eq (md : Metadata) (chapters : List ChapterData)
    (novel_name : String) (start_chapter max_chapters : Int)
    (fs : FS) (ffail : FinalizeFail) :
    run_with_metadata md chapters novel_name start_chapter max_chapters fs ffail
      = { aborted := false
          bookTitle := create_epub_title (some md) novel_name
          toc := (loop_result md chapters novel_name start_chapter max_chapters fs).toc
          spine := (loop_result md chapters novel_name start_chapter max_chapters fs).spine
          chapterCount := (loop_result md chapters novel_name start_chapter max_chapters fs).chapterCount
          fetches := (loop_result md chapters novel_name start_chapter max_chapters fs).fetches
          persistCalls :=
            (loop_result md chapters novel_name start_chapter max_chapters fs).saves.map
              PersistCall.checkpoint ++ [PersistCall.finalSave]
          finalizeOk :=
            (finalize_epub
              (snapshot (loop_result md chapters novel_name start_chapter max_chapters fs))
              ((save_progress
                (snapshot (loop_result md chapters novel_name start_chapter max_chapters fs))
                (loop_result md chapters novel_name start_chapter max_chapters fs).fs).2)
              ffail).1
          fs :=
            (finalize_epub
              (snapshot (loop_result md chapters novel_name start_chapter max_chapters fs))
              ((save_progress
                (snapshot (loop_result md chapters novel_name start_chapter max_chapters fs))
                (loop_result md chapters novel_name start_chapter max_chapters fs).fs).2)
              ffail).2 } := rfl

/-- The schedule of in-loop checkpoints: the chapter counts `1 .. C` that
are divisible by `SAVE_INTERVAL` are exactly `K, 2K, … ≤ C`. -/
theorem filter_range_multiples (C : Nat) :
    ((List.range C).map (fun i => i + 1)).filter (fun x => x % SAVE_INTERVAL = 0)
      = checkpointSchedule C := by
  simp only [checkpointSchedule, SAVE_INTERVAL]
  induction C with
  | zero => rfl
  | succ C ih =>
    rw [List.range_succ, List.map_append, List.filter_append, ih]
    by_cases h5 : (C + 1) % 5 = 0
    · have hdiv : (C + 1) / 5 = C / 5 + 1 := by omega
      have hmul : 5 * (C / 5 + 1) = C + 1 := by omega
      rw [hdiv, List.range_succ, List.map_append]
      simp [h5, hmul]
    · have hdiv : (C + 1) / 5 = C / 5 := by omega
      simp [h5, hdiv]

/-- With a negative chapter cap the loop condition is false on entry and the
loop leaves its state untouched (no fetch happens). -/
theorem chapterLoop_neg (max_chapters : Int) (h : max_chapters < 0)
    (chapters : List ChapterData) (st : LoopState) :
    chapterLoop max_chapters chapters st = st := by
  have hc : ¬(max_chapters = 0 ∨ (st.chapterCount : Int) < max_chapters) := by
    push_neg
    omega
  cases chapters <;> simp [chapterLoop, hc]

/-! ## Helper lemmas for claim C3 -/

/-- When every attempt fails retryably, the request loop exhausts its
remaining iterations and ends with the attempt counter advanced by exactly
that number. -/
theorem safe_request_loop_all_retryable (outcomes : Nat → ReqOutcome)
    (h : ∀ a, outcomes a = ReqOutcome.retryable) :
    ∀ (remaining attempt : Nat),
      safe_request_loop outcomes attempt remaining = (none, attempt + remaining)
  | 0, attempt => by simp [safe_request_loop]
  | remaining + 1, attempt => by
    have ih := safe_request_loop_all_retryable outcomes h remaining (attempt + 1)
    simp only [safe_request_loop, h (attempt + 1)]
    rw [ih]
    congr 1
    omega

/-! ## The claims -/

/-- Claim C1, counterexample to the claim as stated: when serialization of
the temporary file succeeds but the rename fails, the permanent output path
is not left untouched — the previously complete artifact that was sitting
there is gone, because `finalize_epub` removed it before attempting the
rename. -/
theorem c1_counterexample :
    ¬((finalize_epub { title := some "new", toc := [], spine := [], hasNavItems := false }
        { temp := none, output := some previousArtifact }
        FinalizeFail.atRename).2.output = some previousArtifact) := by
  decide

/-- Claim C1 (amended): for every finalize invocation in which serialization
of the temporary file succeeds but the promotion fails at the rename step,
`finalize_epub` reports failure and the temporary artifact (with navigation
items added) remains on disk, but the permanent path is left empty: any
pre-existing complete artifact was already removed before the rename, so the
permanent path holds neither the previous nor the new artifact. -/
theorem c1_rename_failure (book : Book) (fs : FS) :
    (finalize_epub book fs FinalizeFail.atRename).1 = false ∧
    (finalize_epub book fs FinalizeFail.atRename).2.temp = some (with_nav book) ∧
    (finalize_epub book fs FinalizeFail.atRename).2.output = none :=
  ⟨rfl, rfl, rfl⟩

/-- Claim C2: the claim says `download_chapter` returns a chapter record or
null and never raises.  The code evaluates
`soup.find('div', id='article').text` whenever the `div.txt` container is
present; on a page without an element of id `article` that `find` returns
`None` and the attribute access raises `AttributeError`, which the
`except requests.RequestException` clause does not catch — the exception
escapes `download_chapter`. -/
theorem c2_download_chapter_raises :
    download_chapter (some txtOnlySoup) 3 = DownloadResult.raised := rfl

/-- Claim C3 (amended): when every attempt ends in a retryable outcome, the
request is attempted exactly `max_retries + 1` times — the `while attempt <=
max_retries` loop admits one more iteration after `attempt` reaches
`max_retries` — and `None` is returned after the last attempt (6 attempts
for the metadata call site's default of 5, 11 for the chapter call site's
10). -/
theorem c3_retries_exhausted (outcomes : Nat → ReqOutcome) (max_retries : Nat)
    (h : ∀ a, outcomes a = ReqOutcome.retryable) :
    safe_request outcomes max_retries = (none, max_retries + 1) := by
  unfold safe_request
  rw [safe_request_loop_all_retryable outcomes h (max_retries + 1) 0]
  simp

/-- Witness for claim C3's amended theorem at the metadata call site's
default retry count. -/
theorem c3_retries_exhausted_witness :
    (∀ a : Nat, (fun _ => ReqOutcome.retryable) a = ReqOutcome.retryable) ∧
    safe_request (fun _ => ReqOutcome.retryable) 5 = (none, 6) :=
  ⟨fun _ => rfl,
    c3_retries_exhausted (fun _ => ReqOutcome.retryable) 5 (fun _ => rfl)⟩

/-- Claim C3, counterexample to the claim as stated: with all attempts
retryable, the attempt counts are 6 and 11, not the claimed 5
(`METADATA_MAX_RETRIES`) and 10 (`CHAPTER_MAX_RETRIES`). -/
theorem c3_counterexample :
    (safe_request (fun _ => ReqOutcome.retryable) METADATA_MAX_RETRIES).2
        ≠ METADATA_MAX_RETRIES ∧
    (safe_request (fun _ => ReqOutcome.retryable) CHAPTER_MAX_RETRIES).2
        ≠ CHAPTER_MAX_RETRIES := by
  constructor
  · decide
  · decide

/-- Claim C6: for every HTML chapter fragment, applying
`_process_chapter_content` twice yields the same result as applying it once
— the sanitizer is idempotent. -/
theorem c6_sanitizer_idempotent (content : Node) :
    process_chapter_content (process_chapter_content content)
      = process_chapter_content content := by
  cases content with
  | text s => simp [process_chapter_content]
  | elem name attrs children =>
    simp only [process_chapter_content]
    rw [stripAds_fixImgs_comm, stripAds_idem, fixImgs_idem]

/-- Claim C7: the claim says every free-text metadata field is escaped
before interpolation into the description-page template.  The source
interpolates the raw values: with a markup payload in the title, the payload
appears verbatim in the generated page, which therefore differs from the
escaped rendering the specification mandates. -/
theorem c7_description_page_unescaped :
    hasSub "<script>alert(1)</script>".data
        (create_description_page injectionMetadata).data = true ∧
    create_description_page injectionMetadata
      ≠ create_description_page_escaped injectionMetadata := by
  constructor
  · decide
  · decide

/-- Claim C8: the claim says a missing title element makes the book title
fall back to the slug-derived title, never null.  In the source the
`'title'` key is always present in the metadata dictionary (with value
`None` when the selector matched nothing), so `dict.get('title', fallback)`
returns `None` and `set_title` receives `None` — the slug-derived fallback
(`"Shadow Slave"` for the default slug) is dead code on this path. -/
theorem c8_title_is_none :
    create_epub_title (fetch_metadata (some samplePageNoTitle)) "shadow-slave" = none ∧
    (none : Option String) ≠ some (slugTitle "shadow-slave") ∧
    slugTitle "shadow-slave" = "Shadow Slave" := by
  refine ⟨rfl, by simp, ?_⟩
  decide

/-- Claim C9: when the metadata fetch yields nothing, `run` aborts before
the document is built: the whole filesystem is left exactly as it was, and
starting from an empty filesystem neither an output file nor a temporary
file exists afterwards. -/
theorem c9_metadata_abort (chapters : List ChapterData) (novel_name : String)
    (start_chapter max_chapters : Int) (fs : FS) (ffail : FinalizeFail) :
    (run none chapters novel_name start_chapter max_chapters fs ffail).aborted = true ∧
    (run none chapters novel_name start_chapter max_chapters fs ffail).fs = fs ∧
    (run none chapters novel_name start_chapter max_chapters emptyFS ffail).fs.temp = none ∧
    (run none chapters novel_name start_chapter max_chapters emptyFS ffail).fs.output = none :=
  ⟨rfl, rfl, rfl, rfl⟩

/-- Claim C4, counterexample to the claim as stated: the description page is
not first in the spine — the spine is seeded with the literal `'nav'` entry
before the description page is appended, so the spine's first element is the
`'nav'` placeholder. -/
theorem c4_counterexample :
    (run (some samplePage) [{ title := "Chapter One" }] "shadow-slave" 1 0 emptyFS
        FinalizeFail.noFail).spine.head? ≠ some BookItem.descriptionPage := by
  decide

/-- Claim C4 (amended): after the chapter loop of any non-aborted run, the
table of contents and the spine list the appended chapters in the same
relative order, that order is ascending consecutive chapter numbers starting
at the configured start chapter with no gaps, the description page is first
in the table of contents, and in the spine the description page comes first
among content documents, immediately after the initial `'nav'` placeholder
that is always the spine's first element. -/
theorem c4_toc_spine_order (p : OverviewPage) (chapters : List ChapterData)
    (novel_name : String) (start_chapter max_chapters : Int)
    (fs : FS) (ffail : FinalizeFail) :
    ∃ n, n ≤ chapters.length ∧
      (run (some p) chapters novel_name start_chapter max_chapters fs ffail).chapterCount = n ∧
      (run (some p) chapters novel_name start_chapter max_chapters fs ffail).toc
        = BookItem.descriptionLink :: chapterItems start_chapter (chapters.take n) ∧
      (run (some p) chapters novel_name start_chapter max_chapters fs ffail).spine
        = BookItem.navPlaceholder :: BookItem.descriptionPage
            :: chapterItems start_chapter (chapters.take n) := by
  obtain ⟨n, hn, hTitle, hCount, hCur, hToc, hSpine, hSaves, hOut⟩ :=
    chapterLoop_spec max_chapters chapters
      (initial_state (create_epub_title (some (parse_metadata p)) novel_name)
        start_chapter fs)
  rw [run_some_eq, run_with_metadata_eq]
  refine ⟨n, hn, ?_, ?_, ?_⟩
  · simpa [loop_result, initial_state] using hCount
  · simpa [loop_result, initial_state] using hToc
  · simpa [loop_result, initial_state] using hSpine

/-- Claim C5: for every non-aborted run, the progress persister is invoked
exactly at the chapter counts `K, 2K, 3K, … ≤ C` (with `K = SAVE_INTERVAL`
and `C` the number of appended chapters), plus exactly one final invocation
from the `finally` block, whatever `C mod K` is. -/
theorem c5_checkpoint_schedule (p : OverviewPage) (chapters : List ChapterData)
    (novel_name : String) (start_chapter max_chapters : Int)
    (fs : FS) (ffail : FinalizeFail) :
    (run (some p) chapters novel_name start_chapter max_chapters fs ffail).persistCalls
      = (checkpointSchedule
          (run (some p) chapters novel_name start_chapter max_chapters fs ffail).chapterCount).map
            PersistCall.checkpoint ++ [PersistCall.finalSave] := by
  obtain ⟨n, hn, hTitle, hCount, hCur, hToc, hSpine, hSaves, hOut⟩ :=
    chapterLoop_spec max_chapters chapters
      (initial_state (create_epub_title (some (parse_metadata p)) novel_name)
        start_chapter fs)
  rw [run_some_eq, run_with_metadata_eq]
  simp only [loop_result]
  rw [hSaves, hCount]
  simp only [initial_state, List.nil_append, Nat.zero_add]
  rw [filter_range_multiples]

/-- Claim C10: a run configured with a negative maximum-chapter count (a
value outside the spec's domain, where only 0 means unbounded) performs zero
chapter fetches — the loop condition is false on entry — yet still
checkpoints once in the `finally` block and finalizes successfully,
producing an output file containing only the `'nav'` placeholder and the
description page, and leaving no temporary file. -/
theorem c10_negative_cap (p : OverviewPage) (chapters : List ChapterData)
    (novel_name : String) (start_chapter : Int) (max_chapters : Int)
    (h : max_chapters < 0) (fs : FS) :
    (run (some p) chapters novel_name start_chapter max_chapters fs
        FinalizeFail.noFail).fetches = 0 ∧
    (run (some p) chapters novel_name start_chapter max_chapters fs
        FinalizeFail.noFail).chapterCount = 0 ∧
    (run (some p) chapters novel_name start_chapter max_chapters fs
        FinalizeFail.noFail).persistCalls = [PersistCall.finalSave] ∧
    (run (some p) chapters novel_name start_chapter max_chapters fs
        FinalizeFail.noFail).finalizeOk = true ∧
    (run (some p) chapters novel_name start_chapter max_chapters fs
        FinalizeFail.noFail).fs.temp = none ∧
    (run (some p) chapters novel_name start_chapter max_chapters fs
        FinalizeFail.noFail).fs.output = some
      { title := create_epub_title (some (parse_metadata p)) novel_name
        toc := [BookItem.descriptionLink]
        spine := [BookItem.navPlaceholder, BookItem.descriptionPage]
        hasNavItems := true } := by
  have hloop := chapterLoop_neg max_chapters h chapters
    (initial_state (create_epub_title (some (parse_metadata p)) novel_name)
      start_chapter fs)
  rw [run_some_eq, run_with_metadata_eq]
  simp only [loop_result, hloop]
  simp [initial_state, snapshot, save_progress, finalize_epub, with_nav]

/-- Witness for claim C10's theorem at a concrete negative cap. -/
theorem c10_negative_cap_witness :
    ((-1 : Int) < 0) ∧
    ((run (some samplePage) [] "shadow-slave" 1 (-1) emptyFS
        FinalizeFail.noFail).fetches = 0 ∧
     (run (some samplePage) [] "shadow-slave" 1 (-1) emptyFS
        FinalizeFail.noFail).chapterCount = 0 ∧
     (run (some samplePage) [] "shadow-slave" 1 (-1) emptyFS
        FinalizeFail.noFail).persistCalls = [PersistCall.finalSave] ∧
     (run (some samplePage) [] "shadow-slave" 1 (-1) emptyFS
        FinalizeFail.noFail).finalizeOk = true ∧
     (run (some samplePage) [] "shadow-slave" 1 (-1) emptyFS
        FinalizeFail.noFail).fs.temp = none ∧
     (run (some samplePage) [] "shadow-slave" 1 (-1) emptyFS
        FinalizeFail.noFail).fs.output = some
       { title := create_epub_title (some (parse_metadata samplePage)) "shadow-slave"
         toc := [BookItem.descriptionLink]
         spine := [BookItem.navPlaceholder, BookItem.descriptionPage]
         hasNavItems := true }) :=
  ⟨by decide, c10_negative_cap samplePage [] "shadow-slave" 1 (-1) (by decide) emptyFS⟩

end FreeWebNovelParser
